import Mathlib

/-!
Shallow embedding of the switch-tetris game engine (src/src/tetris.ts) and the
gamepad input-normalizer (the HTML5 gamepad library in src/unnamed/part_000),
together with proofs settling the specification claims.

Cell values (0..7) are modelled as `Nat`; player positions are `Int` (they can
go negative in the JS source).  Out-of-bounds array reads, which yield
`undefined` in JavaScript, are modelled with `Option`.
-/

namespace Tetris

/-- An arena or piece matrix: a list of rows of cells, as in the TS source
(`(0|1|2|3|4|5|6|7)[][]`). -/
abbrev Grid := List (List Nat)

/-- `player.pos` from tetris.ts: a column/row offset, possibly negative. -/
structure Pos where
  x : Int
  y : Int
deriving DecidableEq, Repr

/-- The `player` object of tetris.ts (pos, matrix, score). -/
structure Player where
  pos : Pos
  matrix : Grid
  score : Nat
deriving DecidableEq, Repr

/-- JavaScript array indexing `l[i]` with a possibly negative index:
`undefined` (here `none`) when `i` is negative or past the end. -/
def getIdx? (l : List α) (i : Int) : Option α :=
  if i < 0 then none else l.get? i.toNat

/-- The arena cell read `arena[ry] && arena[ry][rx]`, `none` when either index
is out of bounds (JavaScript `undefined`, reached either because the row read
is `undefined` and `&&` short-circuits, or because the cell read is). -/
def arenaCell? (arena : Grid) (ry rx : Int) : Option Nat :=
  (getIdx? arena ry).bind fun row => getIdx? row rx

/-- The test `(arena[ry] && arena[ry][rx]) !== 0` from `collide` in tetris.ts:
an out-of-bounds read gives `undefined`, and `undefined !== 0` is `true`, so
any out-of-bounds cell counts as a hit. -/
def cellHit (arena : Grid) (ry rx : Int) : Bool :=
  match arenaCell? arena ry rx with
  | none => true
  | some c => decide (c ≠ 0)

/-- `collide(arena, player)` from tetris.ts: scan every cell of the player
matrix; report a collision when a non-zero cell hits an occupied or
out-of-bounds arena cell. -/
def collide (arena : Grid) (p : Player) : Bool :=
  (List.range p.matrix.length).any fun y =>
    (List.range ((p.matrix.getD y []).length)).any fun x =>
      decide ((p.matrix.getD y []).getD x 0 ≠ 0) &&
        cellHit arena ((y : Int) + p.pos.y) ((x : Int) + p.pos.x)

/-- `createMatrix(w, h)` from tetris.ts: `h` rows of `w` zeroes. -/
def createMatrix (w h : Nat) : Grid :=
  List.replicate h (List.replicate w 0)

/-- The closed set of piece types of `createPiece`. -/
inductive PieceType where
  | I | L | J | O | Z | S | T
deriving DecidableEq, Repr

/-- `createPiece(type)` from tetris.ts. -/
def createPiece : PieceType → Grid
  | .I => [[0, 1, 0, 0], [0, 1, 0, 0], [0, 1, 0, 0], [0, 1, 0, 0]]
  | .L => [[0, 2, 0], [0, 2, 0], [0, 2, 2]]
  | .J => [[0, 3, 0], [0, 3, 0], [3, 3, 0]]
  | .O => [[4, 4], [4, 4]]
  | .Z => [[5, 5, 0], [0, 5, 5], [0, 0, 0]]
  | .S => [[0, 6, 6], [6, 6, 0], [0, 0, 0]]
  | .T => [[0, 7, 0], [7, 7, 7], [0, 0, 0]]

/-- Read `m[y][x]` with 0 for out-of-range (used only at indices the rotate
loop actually visits, which are in range for the game's square matrices). -/
def mget (m : Grid) (y x : Nat) : Nat :=
  (m.getD y []).getD x 0

/-- Write `m[y][x] = v` (a no-op out of range, like `List.set`). -/
def mset (m : Grid) (y x : Nat) (v : Nat) : Grid :=
  m.set y ((m.getD y []).set x v)

/-- One iteration of the swap loop in `rotate`:
`temp = m[y][x]; m[y][x] = m[x][y]; m[x][y] = temp`. -/
def transposeStep (m : Grid) (y x : Nat) : Grid :=
  let temp := mget m y x
  let m1 := mset m y x (mget m x y)
  mset m1 x y temp

/-- The nested loops of `rotate`: for `y` in `[0, m.length)`, for `x` in
`[0, y)`, swap `m[y][x]` with `m[x][y]` (an in-place transpose for square
matrices). -/
def transposeLoop (m : Grid) : Grid :=
  (List.range m.length).foldl
    (fun acc y => (List.range y).foldl (fun acc2 x => transposeStep acc2 y x) acc) m

/-- `rotate(matrix, dir)` from tetris.ts: transpose, then reverse each row
(clockwise, `dir > 0`) or reverse the row order (counter-clockwise). -/
def rotate (m : Grid) (dir : Int) : Grid :=
  let t := transposeLoop m
  if 0 < dir then t.map List.reverse else t.reverse

/-- The row check of `arenaSweep`: a row is swept when it has no zero cell
(the inner loop `continue outer`s on the first `=== 0` cell). -/
def isFullRow (row : List Nat) : Bool :=
  row.all fun c => decide (c ≠ 0)

/-- The `outer:` loop of `arenaSweep`, one recursive step per loop iteration.
State: current arena, current `y`, `player.score`, `rowCount`.  A full row at
index `y` is spliced out, refilled with zeroes and unshifted at the top, and
the same `y` is re-examined (`++y` then the loop's `--y`); otherwise `y`
decreases.  The loop stops when `y > 0` fails, so row 0 is never examined.
The third component of the result counts the rows removed.  `fuel` bounds the
iteration count (each iteration either lowers `y` or consumes a full row, so
`2 * arena.length + 1` is always enough for non-empty rows). -/
def sweepFrom : Nat → Grid → Nat → Nat → Nat → Grid × Nat × Nat
  | 0, arena, _, score, _ => (arena, score, 0)
  | fuel + 1, arena, y, score, rowCount =>
    if y = 0 then (arena, score, 0)
    else if isFullRow (arena.getD y []) then
      let zeroRow := List.replicate (arena.getD y []).length 0
      let r := sweepFrom fuel (zeroRow :: arena.eraseIdx y) y (score + rowCount * 10) (rowCount * 2)
      (r.1, r.2.1, r.2.2 + 1)
    else
      sweepFrom fuel arena (y - 1) score rowCount

/-- `arenaSweep()` from tetris.ts (arena and score passed explicitly): does
nothing in Fill mode (`mode == 1`); otherwise runs the bottom-up sweep with
`rowCount` starting at 1.  Returns (arena, score, number of rows removed). -/
def arenaSweep (mode : Nat) (arena : Grid) (score : Nat) : Grid × Nat × Nat :=
  if mode ≠ 1 then sweepFrom (2 * arena.length + 1) arena (arena.length - 1) score 1
  else (arena, score, 0)

/-- A position (column `cx`, row `cy`) inside a `w × h` arena. -/
def inBounds (w h : Nat) (cx cy : Int) : Prop :=
  0 ≤ cx ∧ cx < (w : Int) ∧ 0 ≤ cy ∧ cy < (h : Int)

instance (w h : Nat) (cx cy : Int) : Decidable (inBounds w h cx cy) := by
  unfold inBounds
  infer_instance

/-- A row all of whose cells are empty (zero). -/
def allZeroRow (row : List Nat) : Bool :=
  row.all fun c => decide (c = 0)

/-- `playerMove(offset)` from tetris.ts, with the globals (`gamePaused`,
`mode`, `arena`, `player`) passed explicitly.  Guarded by
`gamePaused == false || mode != 0`; shifts the column by `offset` and shifts
it back when the new position collides.  The arena is returned unchanged
(the function never writes to it). -/
def playerMove (paused : Bool) (mode : Nat) (arena : Grid) (p : Player) (offset : Int) :
    Grid × Player :=
  if paused = false ∨ mode ≠ 0 then
    let p1 : Player := ⟨⟨p.pos.x + offset, p.pos.y⟩, p.matrix, p.score⟩
    if collide arena p1 then (arena, ⟨⟨p1.pos.x - offset, p1.pos.y⟩, p1.matrix, p1.score⟩)
    else (arena, p1)
  else (arena, p)

/-- The offset update of `playerRotate`:
`offset = -(offset + (offset > 0 ? 1 : -1))`, producing 1, −2, 3, −4, … -/
def nextOffset (o : Int) : Int :=
  -(o + (if 0 < o then 1 else -1))

/-- The `while (collide(...))` wall-kick loop of `playerRotate`, for a player
with (already rotated) matrix `m` and row `py`: at column `x`, if there is no
collision return `some x`; otherwise add the current offset to the column,
compute the next offset, and bail out with `none` as soon as that offset
exceeds the piece width (`player.matrix[0].length`).  `fuel` bounds the
iterations; since the offset magnitude grows by one per step and the loop
bails at the first positive offset exceeding the width `w`, `w + 3` steps
always suffice. -/
def kickLoop (arena : Grid) (m : Grid) (py : Int) (s : Nat) : Nat → Int → Int → Option Int
  | 0, _, _ => none
  | fuel + 1, x, o =>
    if collide arena ⟨⟨x, py⟩, m, s⟩ then
      let o' := nextOffset o
      if ((m.getD 0 []).length : Int) < o' then none
      else kickLoop arena m py s fuel (x + o) o'
    else some x

/-- `playerRotate(dir)` from tetris.ts: under the pause guard, rotate the
matrix, then run the wall-kick loop from the current column with offset 1;
on success adopt the found column, on bail-out rotate by `-dir` and restore
the saved column `pos`. -/
def playerRotate (paused : Bool) (mode : Nat) (arena : Grid) (p : Player) (dir : Int) :
    Player :=
  if paused = false ∨ mode ≠ 0 then
    let m' := rotate p.matrix dir
    match kickLoop arena m' p.pos.y p.score ((m'.getD 0 []).length + 3) p.pos.x 1 with
    | some x' => ⟨⟨x', p.pos.y⟩, m', p.score⟩
    | none => ⟨⟨p.pos.x, p.pos.y⟩, rotate m' (-dir), p.score⟩
  else p

/-- The shape of every matrix `playerRotate` is ever applied to: the
`createPiece` matrices and their rotations are square of side 2, 3 or 4. -/
def squareLE4 (m : Grid) : Prop :=
  m.length ≤ 4 ∧ ∀ row ∈ m, row.length = m.length

instance (m : Grid) : Decidable (squareLE4 m) := by
  unfold squareLE4
  infer_instance

/-- `updateScore()` from tetris.ts (DOM write dropped): the chain of strict
30-point band checks on `player.score` assigning `speedModifier`; scores
matching no band leave the modifier unchanged.  The decimal literals are
modelled exactly, as rationals. -/
def updateScore (score : Nat) (sm : ℚ) : ℚ :=
  if 30 < score ∧ score < 60 then 0.9
  else if 60 < score ∧ score < 90 then 0.8
  else if 90 < score ∧ score < 120 then 0.7
  else if 120 < score ∧ score < 150 then 0.6
  else if 150 < score ∧ score < 180 then 0.5
  else if 180 < score ∧ score < 210 then 0.4
  else if 210 < score ∧ score < 240 then 0.3
  else if 240 < score ∧ score < 270 then 0.2
  else if 270 < score ∧ score < 300 then 0.1
  else sm

/-- The concrete scenario arena: the game's 12×20 arena with the bottom row
fully occupied. -/
def scenarioArena : Grid :=
  createMatrix 12 19 ++ [List.replicate 12 1]

/-- A 3×3 arena with every cell occupied (used to force the wall-kick loop of
`playerRotate` to fail everywhere). -/
def fullArena3 : Grid :=
  List.replicate 3 (List.replicate 3 1)

/-! ### The gamepad input normalizer (src/unnamed/part_000) -/

/-- `_applyDeadzoneMaximize(value, deadzone, maximizeThreshold)` from the
gamepad library, with all three arguments explicit.  Values are modelled as
exact rationals. -/
def applyDeadzoneMaximize (value deadzone maximizeThreshold : ℚ) : ℚ :=
  if 0 ≤ value then
    if value < deadzone then 0
    else if maximizeThreshold < value then 1
    else value
  else
    if -deadzone < value then 0
    else if value < -maximizeThreshold then -1
    else value

/-- `_applyDeadzoneMaximize(value)` with both optional arguments omitted, so
the instance defaults `this.deadzone = 0.03` and
`this.maximizeThreshold = 0.97` apply. -/
def applyDeadzoneMaximizeDefault (value : ℚ) : ℚ :=
  applyDeadzoneMaximize value 0.03 0.97

/-- The platform strategies (`FirefoxPlatform.getType() = "Firefox"`,
`WebKitPlatform.getType() = "WebKit"`, the null platform `"null"`). -/
inductive PlatformType where
  | firefox | webKit | nullPlatform
deriving DecidableEq, Repr

/-- `Gamepad.Type`. -/
inductive ControllerType where
  | n64 | playstation | logitech | xbox | unknown
deriving DecidableEq, Repr

/-- One entry of a `buttons.byAxis` list: `-1`-style plain numbers or the
3-tuples `[axis, zeroValue, oneValue]` redirecting a button to an axis. -/
inductive AxisSpec where
  | direct (i : Int)
  | range (axis zero one : Int)
deriving DecidableEq, Repr

/-- One mapping table entry: the `env` filter (absent for `StandardMapping`,
whose empty filter matches everything) and the button/axis index lists. -/
structure GamepadMapping where
  envFilter : Option (PlatformType × ControllerType)
  byButton : List Int
  buttonsByAxis : List AxisSpec
  axesByAxis : List Int
deriving DecidableEq, Repr

/-- `Gamepad.StandardMapping`: the identity mapping (standard index ↦ same
index) with an empty `env` filter. -/
def StandardMapping : GamepadMapping where
  envFilter := none
  byButton := [0, 1, 2, 3, 4, 5, 6, 7, 8, 9, 10, 11, 12, 13, 14, 15, 16]
  buttonsByAxis := []
  axesByAxis := [0, 1, 2, 3]

/-- The "XBOX360 controller on Firefox" entry of `Gamepad.Mappings`. -/
def xbox360FirefoxMapping : GamepadMapping where
  envFilter := some (.firefox, .xbox)
  byButton := [0, 1, 2, 3, 4, 5, 15, 16, 9, 8, 6, 7, 11, 12, 13, 14, 10]
  buttonsByAxis := []
  axesByAxis := [0, 1, 2, 3]

/-- `Gamepad.Mappings`, in source order: Retrolink N64 on Firefox and WebKit,
XBOX360 on Firefox, PS3 on Firefox, Logitech on WebKit and Firefox. -/
def Mappings : List GamepadMapping :=
  [ { envFilter := some (.firefox, .n64)
      byButton := [2, 1, 3, 0, 4, 5, -1, -1, 8, 9, -1, -1, 12, 13, 14, 15, -1]
      buttonsByAxis := []
      axesByAxis := [1, 2, -1, -1] },
    { envFilter := some (.webKit, .n64)
      byButton := [2, 1, 3, 0, 4, 5, -1, -1, 8, 9, -1, -1, 12, 13, 14, 15, -1]
      buttonsByAxis := []
      axesByAxis := [0, 1, -1, -1] },
    xbox360FirefoxMapping,
    { envFilter := some (.firefox, .playstation)
      byButton := [14, 13, 15, 12, 10, 11, 8, 9, 0, 3, 1, 2, 4, 6, 7, 5, 16]
      buttonsByAxis := []
      axesByAxis := [0, 1, 2, 3] },
    { envFilter := some (.webKit, .logitech)
      byButton := [1, 2, 0, 3, 4, 5, 6, 7, 8, 9, 10, 11, 11, 12, 13, 14, 10]
      buttonsByAxis := []
      axesByAxis := [0, 1, 2, 3] },
    { envFilter := some (.firefox, .logitech)
      byButton := [0, 1, 2, 3, 4, 5, -1, -1, 6, 7, 8, 9, 11, 12, 13, 14, 10]
      buttonsByAxis := [.direct (-1), .direct (-1), .direct (-1), .direct (-1),
        .direct (-1), .direct (-1), .range 2 0 1, .range 2 0 (-1)]
      axesByAxis := [0, 1, 3, 4] } ]

/-- `Gamepad.envMatchesFilter(filter, env)`: every field present in the
filter must equal the corresponding environment field (all `Mappings` entries
fix both `platform` and `type`; the empty filter matches everything). -/
def envMatchesFilter (filter : Option (PlatformType × ControllerType))
    (p : PlatformType) (t : ControllerType) : Bool :=
  match filter with
  | none => true
  | some (fp, ft) => fp == p && ft == t

/-- The whitespace class of the JS regex `\s` (restricted to the escapes that
can occur in controller identity strings). -/
def isWsChar (c : Char) : Bool :=
  c == ' ' || c == '\t' || c == '\n' || c == '\r'

/-- Helper of `squeezeWs`: the flag records whether the previous character
was whitespace (so further whitespace of the same run is dropped). -/
def squeezeWsAux : Bool → List Char → List Char
  | _, [] => []
  | prevWs, c :: t =>
    if isWsChar c then
      if prevWs then squeezeWsAux true t else ' ' :: squeezeWsAux true t
    else c :: squeezeWsAux false t

/-- `id.replace(/\s+/g, " ")`: each maximal whitespace run becomes one
space. -/
def squeezeWs (l : List Char) : List Char :=
  squeezeWsAux false l

/-- `id.replace(/^\s+|\s+$/g, "")`: strip leading and trailing whitespace. -/
def trimWs (l : List Char) : List Char :=
  ((l.dropWhile isWsChar).reverse.dropWhile isWsChar).reverse

/-- The identity normalization of `_resolveControllerType`: lowercase,
collapse whitespace runs, trim. -/
def normalizeId (s : String) : List Char :=
  trimWs (squeezeWs (s.toList.map Char.toLower))

/-- JS `hay.indexOf(needle) !== -1` on character lists. -/
def strContains (needle : List Char) : List Char → Bool
  | [] => needle.isEmpty
  | c :: t => needle.isPrefixOf (c :: t) || strContains needle t

/-- `id.indexOf(s) !== -1` for a normalized identity `id`. -/
def hasSub (id : List Char) (s : String) : Bool :=
  strContains s.toList id

/-- `_resolveControllerType(id)` from the gamepad library: normalize the
identity string, then substring-match the vendor keywords in source order. -/
def resolveControllerType (id : String) : ControllerType :=
  let n := normalizeId id
  if hasSub n "playstation" then .playstation
  else if hasSub n "logitech" || hasSub n "wireless gamepad" then .logitech
  else if hasSub n "xbox" || hasSub n "360" then .xbox
  else if (hasSub n "79-6-generic" && hasSub n "joystick") ||
      (hasSub n "vendor: 0079 product: 0006" && hasSub n "generic usb joystick") then .n64
  else .unknown

/-- `_resolveMapping(gamepad)`: the first `Mappings` entry whose `env` filter
matches `(platform, resolved controller type)`, else `StandardMapping`. -/
def resolveMapping (platform : PlatformType) (id : String) : GamepadMapping :=
  (Mappings.find? fun mp =>
    envMatchesFilter mp.envFilter platform (resolveControllerType id)).getD StandardMapping

/-! ### Theorems -/

/-- C2: applying `rotate` four times with one fixed direction (clockwise for
`dir > 0`, counter-clockwise otherwise) returns each of the seven
`createPiece` matrices to its original cell values. -/
theorem rotate_four_cycle (t : PieceType) (d : Int) :
    rotate (rotate (rotate (rotate (createPiece t) d) d) d) d = createPiece t := by
  by_cases h : 0 < d <;> cases t <;> simp [rotate, h] <;> decide

lemma collide_eq_true_iff (arena : Grid) (p : Player) :
    collide arena p = true ↔
      ∃ y, y < p.matrix.length ∧ ∃ x, x < (p.matrix.getD y []).length ∧
        (p.matrix.getD y []).getD x 0 ≠ 0 ∧
        cellHit arena ((y : Int) + p.pos.y) ((x : Int) + p.pos.x) = true := by
  simp [collide, List.any_eq_true, List.mem_range]

lemma getIdx?_of_nonneg (l : List α) (i : Int) (h0 : 0 ≤ i) :
    getIdx? l i = l.get? i.toNat := by
  simp [getIdx?]
  omega

lemma getIdx?_eq_none_of_neg (l : List α) (i : Int) (h : i < 0) : getIdx? l i = none := by
  simp [getIdx?, h]

lemma getIdx?_eq_none_of_ge (l : List α) (i : Int) (h : (l.length : Int) ≤ i) :
    getIdx? l i = none := by
  rw [getIdx?_of_nonneg l i (by omega), List.get?_eq_none]
  omega

lemma getIdx?_exists_of_lt (l : List α) (i : Int) (h0 : 0 ≤ i) (hl : i < (l.length : Int)) :
    ∃ a ∈ l, getIdx? l i = some a := by
  rw [getIdx?_of_nonneg l i h0]
  have hlt : i.toNat < l.length := by omega
  exact ⟨l.get ⟨i.toNat, hlt⟩, List.get_mem _ _ _, List.get?_eq_get hlt⟩

/-- Inside an all-zero rectangular arena every cell read misses. -/
lemma cellHit_false_of_zero (arena : Grid) (w h : Nat) (hlen : arena.length = h)
    (hw : ∀ row ∈ arena, row.length = w) (hz : ∀ row ∈ arena, ∀ c ∈ row, c = 0)
    (ry rx : Int) (hb : inBounds w h rx ry) :
    cellHit arena ry rx = false := by
  obtain ⟨hx0, hxw, hy0, hyh⟩ := hb
  obtain ⟨row, hmem, hrow⟩ := getIdx?_exists_of_lt arena ry hy0 (by omega)
  have hrw : row.length = w := hw _ hmem
  obtain ⟨c, hcmem, hcell⟩ := getIdx?_exists_of_lt row rx hx0 (by omega)
  have hzero : c = 0 := hz _ hmem _ hcmem
  simp [cellHit, arenaCell?, hrow, hcell, hzero]

/-- An out-of-bounds cell read hits (JS `undefined !== 0`). -/
lemma cellHit_true_of_oob (arena : Grid) (w h : Nat) (hlen : arena.length = h)
    (hw : ∀ row ∈ arena, row.length = w) (ry rx : Int)
    (hb : ¬ inBounds w h rx ry) :
    cellHit arena ry rx = true := by
  by_cases hy : 0 ≤ ry ∧ ry < (h : Int)
  · -- the row exists, so the column must be out of bounds
    obtain ⟨row, hmem, hrow⟩ := getIdx?_exists_of_lt arena ry hy.1 (by omega)
    have hrw : row.length = w := hw _ hmem
    have hx : rx < 0 ∨ (w : Int) ≤ rx := by
      unfold inBounds at hb
      omega
    rcases hx with hx | hx
    · simp [cellHit, arenaCell?, hrow, getIdx?_eq_none_of_neg row rx hx]
    · simp [cellHit, arenaCell?, hrow, getIdx?_eq_none_of_ge row rx (by omega)]
  · have hy' : ry < 0 ∨ (h : Int) ≤ ry := by omega
    rcases hy' with hy' | hy'
    · simp [cellHit, arenaCell?, getIdx?_eq_none_of_neg arena ry hy']
    · simp [cellHit, arenaCell?, getIdx?_eq_none_of_ge arena ry (by omega)]

/-- An occupied cell read hits. -/
lemma cellHit_true_of_occupied (arena : Grid) (ry rx : Int) (c : Nat)
    (hc : arenaCell? arena ry rx = some c) (hne : c ≠ 0) :
    cellHit arena ry rx = true := by
  simp [cellHit, hc, hne]

/-- C1: `collide` is `false` on an all-zero rectangular arena whenever every
non-zero piece cell lands inside `[0,w) × [0,h)`, and `true` whenever some
non-zero piece cell lands out of bounds or on a non-zero arena cell. -/
theorem collide_bounds_spec :
    (∀ (w h : Nat) (arena : Grid) (p : Player),
      arena.length = h → (∀ row ∈ arena, row.length = w) →
      (∀ row ∈ arena, ∀ c ∈ row, c = 0) →
      (∀ y x, y < p.matrix.length → x < (p.matrix.getD y []).length →
        (p.matrix.getD y []).getD x 0 ≠ 0 →
        inBounds w h ((x : Int) + p.pos.x) ((y : Int) + p.pos.y)) →
      collide arena p = false) ∧
    (∀ (w h : Nat) (arena : Grid) (p : Player),
      arena.length = h → (∀ row ∈ arena, row.length = w) →
      (∃ y x, y < p.matrix.length ∧ x < (p.matrix.getD y []).length ∧
        (p.matrix.getD y []).getD x 0 ≠ 0 ∧
        (¬ inBounds w h ((x : Int) + p.pos.x) ((y : Int) + p.pos.y) ∨
          ∃ c, arenaCell? arena ((y : Int) + p.pos.y) ((x : Int) + p.pos.x) = some c ∧
            c ≠ 0)) →
      collide arena p = true) := by
  constructor
  · intro w h arena p hlen hw hz hin
    rw [← Bool.not_eq_true, collide_eq_true_iff]
    rintro ⟨y, hy, x, hx, hcell, hhit⟩
    rw [cellHit_false_of_zero arena w h hlen hw hz _ _ (hin y x hy hx hcell)] at hhit
    exact Bool.false_ne_true hhit
  · rintro w h arena p hlen hw ⟨y, x, hy, hx, hcell, hrest⟩
    rw [collide_eq_true_iff]
    refine ⟨y, hy, x, hx, hcell, ?_⟩
    rcases hrest with hoob | ⟨c, hc, hcne⟩
    · exact cellHit_true_of_oob arena w h hlen hw _ _ hoob
    · exact cellHit_true_of_occupied arena _ _ c hc hcne

/-- Witness for C1: on the all-zero 2×2 arena a 1×1 piece at (0,0) does not
collide, and the same piece shifted to column −1 (out of bounds) does. -/
theorem collide_bounds_spec_witness :
    collide [[0, 0], [0, 0]] ⟨⟨0, 0⟩, [[1]], 0⟩ = false ∧
    collide [[0, 0], [0, 0]] ⟨⟨-1, 0⟩, [[1]], 0⟩ = true := by
  constructor
  · refine collide_bounds_spec.1 2 2 _ _ rfl (by decide) (by decide) ?_
    intro y x hy hx _
    have hy1 : y = 0 := by simpa using hy
    subst hy1
    have hx1 : x = 0 := by simpa using hx
    subst hx1
    decide
  · refine collide_bounds_spec.2 2 2 _ _ rfl (by decide) ?_
    exact ⟨0, 0, by decide, by decide, by decide, Or.inl (by decide)⟩

/-- C5 counterexample: on the empty 12×20 arena of the game, a 1×1 piece whose
only non-zero cell sits at row −1 (above the arena top, column 0 in bounds)
*does* collide: `arena[-1]` is `undefined` in JS and `undefined !== 0` holds,
so `collide` returns `true`, not `false` as the claim states. -/
theorem collide_above_top_counterexample :
    collide (createMatrix 12 20) ⟨⟨0, -1⟩, [[1]], 0⟩ = true := by decide

/-- C5 amended: `collide` treats rows above the arena top as *colliding*: any
non-zero piece cell with row index `y + pos.y < 0` makes it return `true`. -/
theorem collide_above_top (arena : Grid) (p : Player)
    (h : ∃ y x, y < p.matrix.length ∧ x < (p.matrix.getD y []).length ∧
      (p.matrix.getD y []).getD x 0 ≠ 0 ∧ (y : Int) + p.pos.y < 0) :
    collide arena p = true := by
  obtain ⟨y, x, hy, hx, hcell, hneg⟩ := h
  rw [collide_eq_true_iff]
  refine ⟨y, hy, x, hx, hcell, ?_⟩
  simp [cellHit, arenaCell?, getIdx?_eq_none_of_neg arena _ hneg]

/-- Witness for the amended C5 at a concrete state. -/
theorem collide_above_top_witness :
    collide [[0]] ⟨⟨0, -2⟩, [[1]], 0⟩ = true :=
  collide_above_top [[0]] ⟨⟨0, -2⟩, [[1]], 0⟩ ⟨0, 0, by decide, by decide, by decide, by decide⟩

/-! ### Lemmas about `arenaSweep` -/

lemma sum_powers (n : Nat) : ∑ i ∈ Finset.range n, 10 * 2 ^ i = 10 * (2 ^ n - 1) := by
  induction n with
  | zero => simp
  | succ n ih =>
    rw [Finset.sum_range_succ, ih, pow_succ]
    have h1 : 1 ≤ 2 ^ n := Nat.one_le_two_pow
    omega

lemma sweepFrom_zero_fuel (arena : Grid) (y score rc : Nat) :
    sweepFrom 0 arena y score rc = (arena, score, 0) := rfl

lemma sweepFrom_stop (fuel : Nat) (arena : Grid) (score rc : Nat) :
    sweepFrom (fuel + 1) arena 0 score rc = (arena, score, 0) := by
  simp [sweepFrom]

lemma sweepFrom_succ_full (fuel : Nat) (arena : Grid) (y score rc : Nat) (hy : y ≠ 0)
    (hfull : isFullRow (arena.getD y []) = true) :
    sweepFrom (fuel + 1) arena y score rc =
      ((sweepFrom fuel (List.replicate (arena.getD y []).length 0 :: arena.eraseIdx y) y
          (score + rc * 10) (rc * 2)).1,
       (sweepFrom fuel (List.replicate (arena.getD y []).length 0 :: arena.eraseIdx y) y
          (score + rc * 10) (rc * 2)).2.1,
       (sweepFrom fuel (List.replicate (arena.getD y []).length 0 :: arena.eraseIdx y) y
          (score + rc * 10) (rc * 2)).2.2 + 1) := by
  simp only [sweepFrom, if_neg hy, if_pos hfull]

lemma sweepFrom_succ_notfull (fuel : Nat) (arena : Grid) (y score rc : Nat) (hy : y ≠ 0)
    (hfull : ¬ isFullRow (arena.getD y []) = true) :
    sweepFrom (fuel + 1) arena y score rc = sweepFrom fuel arena (y - 1) score rc := by
  simp only [sweepFrom, if_neg hy, if_neg hfull]

lemma sweepFrom_score (fuel : Nat) : ∀ (arena : Grid) (y score rc : Nat),
    (sweepFrom fuel arena y score rc).2.1 =
      score + rc * 10 * (2 ^ (sweepFrom fuel arena y score rc).2.2 - 1) := by
  induction fuel with
  | zero => intro arena y score rc; simp [sweepFrom_zero_fuel]
  | succ fuel ih =>
    intro arena y score rc
    by_cases hy : y = 0
    · subst hy
      simp [sweepFrom_stop]
    · by_cases hfull : isFullRow (arena.getD y []) = true
      · rw [sweepFrom_succ_full fuel arena y score rc hy hfull]
        rw [ih, pow_succ]
        generalize (sweepFrom fuel _ y _ _).2.2 = n
        have h1 : 1 ≤ 2 ^ n := Nat.one_le_two_pow
        obtain ⟨m, hm⟩ : ∃ m, 2 ^ n = m + 1 := ⟨2 ^ n - 1, by omega⟩
        rw [hm]
        have h2 : (m + 1) * 2 - 1 = 2 * m + 1 := by omega
        rw [h2]
        simp only [Nat.add_sub_cancel]
        ring
      · rw [sweepFrom_succ_notfull fuel arena y score rc hy hfull]
        exact ih arena (y - 1) score rc

lemma getD_eq_getElem (arena : Grid) (y : Nat) (hy : y < arena.length) :
    arena.getD y [] = arena[y] := by
  rw [List.getD_eq_getElem?_getD, List.getElem?_eq_getElem hy]
  rfl

lemma getD_mem (arena : Grid) (y : Nat) (hy : y < arena.length) :
    arena.getD y [] ∈ arena := by
  rw [getD_eq_getElem arena y hy]
  exact List.getElem_mem hy

lemma replicate_ne_nil_of_pos (a : α) (n : Nat) (h : n ≠ 0) : List.replicate n a ≠ [] := by
  cases n with
  | zero => exact absurd rfl h
  | succ m => simp [List.replicate]

lemma allZero_not_full (row : List Nat) (hne : row ≠ []) (hz : allZeroRow row = true) :
    isFullRow row = false := by
  cases row with
  | nil => exact absurd rfl hne
  | cons c t =>
    simp [allZeroRow] at hz
    simp [isFullRow, hz.1]

lemma take_cons_eraseIdx (arena : Grid) (z : List Nat) (y t : Nat) (hty : t ≤ y)
    (hy : y ≤ arena.length) :
    (z :: arena.eraseIdx y).take (t + 1) = z :: arena.take t := by
  rw [List.take_succ_cons, List.eraseIdx_eq_take_drop_succ,
    List.take_append_of_le_length (by rw [List.length_take]; omega),
    List.take_take]
  have hmin : t ⊓ y = t := by omega
  rw [hmin]

lemma drop_cons_eraseIdx (arena : Grid) (z : List Nat) (y : Nat) (hy : y ≤ arena.length) :
    (z :: arena.eraseIdx y).drop (y + 1) = arena.drop (y + 1) := by
  rw [List.drop_succ_cons, List.eraseIdx_eq_take_drop_succ]
  have hlen : (arena.take y).length = y := by rw [List.length_take]; omega
  calc (arena.take y ++ arena.drop (y + 1)).drop y
      = (arena.take y ++ arena.drop (y + 1)).drop (arena.take y).length := by rw [hlen]
    _ = arena.drop (y + 1) := List.drop_left _ _

lemma countP_take_succ_full (arena : Grid) (y : Nat) (hy : y < arena.length)
    (hfull : isFullRow (arena.getD y []) = true) :
    (arena.take (y + 1)).countP isFullRow = (arena.take y).countP isFullRow + 1 := by
  rw [getD_eq_getElem arena y hy] at hfull
  rw [List.take_succ, List.getElem?_eq_getElem hy, List.countP_append]
  simp [List.countP_cons, hfull]

lemma countP_take_succ_notfull (arena : Grid) (y : Nat) (hy : y < arena.length)
    (hfull : isFullRow (arena.getD y []) = false) :
    (arena.take (y + 1)).countP isFullRow = (arena.take y).countP isFullRow := by
  rw [getD_eq_getElem arena y hy] at hfull
  rw [List.take_succ, List.getElem?_eq_getElem hy, List.countP_append]
  simp [List.countP_cons, hfull]

/-- Loop invariant of the sweep: the rows already scanned (strictly below the
cursor `y`) hold no full row, each removed row puts one all-zero row on top of
the arena, and the arena length never changes.  `fuel` is consumed at most
once per cursor step plus once per still-present full row. -/
lemma sweepFrom_invariant : ∀ (fuel : Nat) (arena : Grid) (y score rc t : Nat),
    (∀ row ∈ arena, row ≠ []) →
    y < arena.length →
    (∀ row ∈ arena.drop (y + 1), isFullRow row = false) →
    (∀ row ∈ arena.take t, allZeroRow row = true) →
    y + 1 + (arena.take (y + 1)).countP isFullRow ≤ fuel →
    (sweepFrom fuel arena y score rc).1.length = arena.length ∧
    (∀ row ∈ (sweepFrom fuel arena y score rc).1.drop 1, isFullRow row = false) ∧
    (∀ row ∈ (sweepFrom fuel arena y score rc).1.take
        (t + (sweepFrom fuel arena y score rc).2.2), allZeroRow row = true) := by
  intro fuel
  induction fuel with
  | zero =>
    intro arena y score rc t hne hylen hdrop htake hfuel
    omega
  | succ fuel ih =>
    intro arena y score rc t hne hylen hdrop htake hfuel
    by_cases hy : y = 0
    · subst hy
      rw [sweepFrom_stop]
      refine ⟨rfl, by simpa using hdrop, ?_⟩
      simpa using htake
    · by_cases hfull : isFullRow (arena.getD y []) = true
      · -- a full row at `y` is removed and an all-zero row unshifted on top
        have hrowmem : arena.getD y [] ∈ arena := getD_mem _ _ hylen
        have hrowne : arena.getD y [] ≠ [] := hne _ hrowmem
        have hrlen : (arena.getD y []).length ≠ 0 := by
          intro h0
          exact hrowne (List.length_eq_zero.mp h0)
        have hzrne : List.replicate (arena.getD y []).length (0 : Nat) ≠ [] :=
          replicate_ne_nil_of_pos 0 _ hrlen
        have hzrzero : allZeroRow (List.replicate (arena.getD y []).length 0) = true := by
          simp [allZeroRow, List.all_eq_true, List.mem_replicate]
        have hty : t ≤ y := by
          by_contra hlt
          have hget : (arena.take t).get? y = some (arena.getD y []) := by
            rw [List.get?_take (by omega), List.get?_eq_get hylen,
              getD_eq_getElem arena y hylen]
            rfl
          have hmem : arena.getD y [] ∈ arena.take t := List.get?_mem hget
          have := allZero_not_full _ hrowne (htake _ hmem)
          rw [this] at hfull
          exact Bool.false_ne_true hfull
        have hlen' : (List.replicate (arena.getD y []).length (0 : Nat) ::
            arena.eraseIdx y).length = arena.length := by
          simp [List.length_eraseIdx, hylen]
          omega
        have hne' : ∀ row ∈ (List.replicate (arena.getD y []).length (0 : Nat) ::
            arena.eraseIdx y), row ≠ [] := by
          intro row hmem
          rcases List.mem_cons.mp hmem with h | h
          · rw [h]; exact hzrne
          · exact hne row (List.eraseIdx_subset _ _ h)
        have hdrop' : ∀ row ∈ (List.replicate (arena.getD y []).length (0 : Nat) ::
            arena.eraseIdx y).drop (y + 1), isFullRow row = false := by
          rw [drop_cons_eraseIdx _ _ _ (le_of_lt hylen)]
          exact hdrop
        have htake' : ∀ row ∈ (List.replicate (arena.getD y []).length (0 : Nat) ::
            arena.eraseIdx y).take (t + 1), allZeroRow row = true := by
          rw [take_cons_eraseIdx _ _ _ _ hty (le_of_lt hylen)]
          intro row hmem
          rcases List.mem_cons.mp hmem with h | h
          · rw [h]; exact hzrzero
          · exact htake row h
        have hfuel' : y + 1 + ((List.replicate (arena.getD y []).length (0 : Nat) ::
            arena.eraseIdx y).take (y + 1)).countP isFullRow ≤ fuel := by
          rw [take_cons_eraseIdx _ _ _ _ le_rfl (le_of_lt hylen)]
          rw [countP_take_succ_full arena y hylen hfull] at hfuel
          have hifz : (if isFullRow (List.replicate (arena.getD y []).length (0 : Nat)) = true
              then 1 else 0) = 0 := by
            rw [allZero_not_full _ hzrne hzrzero]
            rfl
          rw [List.countP_cons, hifz]
          omega
        have := ih (List.replicate (arena.getD y []).length (0 : Nat) :: arena.eraseIdx y)
          y (score + rc * 10) (rc * 2) (t + 1) hne' (by omega) hdrop' htake' hfuel'
        rw [sweepFrom_succ_full fuel arena y score rc hy hfull]
        dsimp only
        refine ⟨by rw [this.1, hlen'], this.2.1, ?_⟩
        have harith : t + ((sweepFrom fuel (List.replicate (arena.getD y []).length 0 ::
            arena.eraseIdx y) y (score + rc * 10) (rc * 2)).2.2 + 1) =
            (t + 1) + (sweepFrom fuel (List.replicate (arena.getD y []).length 0 ::
            arena.eraseIdx y) y (score + rc * 10) (rc * 2)).2.2 := by omega
        rw [harith]
        exact this.2.2
      · -- row `y` is not full: the cursor moves down
        have hfull' : isFullRow (arena.getD y []) = false := by
          simpa using hfull
        have hy1 : y - 1 + 1 = y := by omega
        have hdrop' : ∀ row ∈ arena.drop (y - 1 + 1), isFullRow row = false := by
          rw [hy1, List.drop_eq_getElem_cons hylen]
          intro row hmem
          rcases List.mem_cons.mp hmem with h | h
          · rw [h, ← getD_eq_getElem arena y hylen]
            exact hfull'
          · exact hdrop row h
        have hfuel' : y - 1 + 1 + (arena.take (y - 1 + 1)).countP isFullRow ≤ fuel := by
          rw [hy1]
          rw [countP_take_succ_notfull arena y hylen hfull'] at hfuel
          omega
        have := ih arena (y - 1) score rc t hne (by omega) hdrop' htake hfuel'
        rw [sweepFrom_succ_notfull fuel arena y score rc hy hfull]
        exact this

/-- C4 counterexample: the sweep loop runs `for (y = arena.length - 1; y > 0; --y)`
and never examines row 0, so in the Normal-mode arena `[[1], [0]]` the top row
`[1]`, which has no empty cell, is *not* removed (nothing is removed at all),
refuting "removes every arena row that has no empty (zero) cell". -/
theorem arenaSweep_full_top_row_counterexample :
    (arenaSweep 0 [[1], [0]] 0).1 = [[1], [0]] ∧ isFullRow [1] = true := by
  decide

/-- C4 amended: in Normal mode `arenaSweep` keeps the arena height, removes
every full row at index ≥ 1 (a full *top* row survives unless a clear below
pushes it down), and for each removed row an all-zero row stands at the top
of the resulting arena. -/
theorem arenaSweep_normal_spec (arena : Grid) (score : Nat)
    (hne : ∀ row ∈ arena, row ≠ []) :
    (arenaSweep 0 arena score).1.length = arena.length ∧
    (∀ row ∈ (arenaSweep 0 arena score).1.drop 1, isFullRow row = false) ∧
    (∀ row ∈ (arenaSweep 0 arena score).1.take (arenaSweep 0 arena score).2.2,
      allZeroRow row = true) := by
  unfold arenaSweep
  rw [if_pos (by decide : (0 : Nat) ≠ 1)]
  cases arena with
  | nil =>
    refine ⟨rfl, ?_, ?_⟩ <;> intro row hmem <;> simp at hmem <;> cases hmem
  | cons r rest =>
    have hlen : 0 < (r :: rest).length := by simp
    have hdrop : ∀ row ∈ (r :: rest).drop ((r :: rest).length - 1 + 1),
        isFullRow row = false := by
      intro row hmem
      have h1 : (r :: rest).length - 1 + 1 = (r :: rest).length := by omega
      rw [h1, List.drop_length] at hmem
      simp at hmem
    have htake : ∀ row ∈ (r :: rest).take 0, allZeroRow row = true := by
      intro row hmem
      simp at hmem
    have hfuel : (r :: rest).length - 1 + 1 +
        ((r :: rest).take ((r :: rest).length - 1 + 1)).countP isFullRow ≤
        2 * (r :: rest).length + 1 := by
      have hc := @List.countP_le_length _ isFullRow ((r :: rest).take ((r :: rest).length - 1 + 1))
      have hl : ((r :: rest).take ((r :: rest).length - 1 + 1)).length ≤ (r :: rest).length := by
        rw [List.length_take]
        omega
      omega
    have := sweepFrom_invariant (2 * (r :: rest).length + 1) (r :: rest)
      ((r :: rest).length - 1) score 1 0 hne (by omega) hdrop htake hfuel
    refine ⟨this.1, this.2.1, ?_⟩
    simpa using this.2.2

/-- Witness for the amended C4: the spec's scenario.  The 12×20 arena with a
fully occupied bottom row satisfies the hypotheses; moreover the sweep clears
that row, keeps height 20, puts a fresh empty row on top (the resulting arena
is the all-zero 12×20 arena) and adds exactly 10 points. -/
theorem arenaSweep_normal_spec_witness :
    (∀ row ∈ scenarioArena, row ≠ []) ∧
    ((arenaSweep 0 scenarioArena 0).1.length = scenarioArena.length ∧
     (∀ row ∈ (arenaSweep 0 scenarioArena 0).1.drop 1, isFullRow row = false) ∧
     (∀ row ∈ (arenaSweep 0 scenarioArena 0).1.take (arenaSweep 0 scenarioArena 0).2.2,
       allZeroRow row = true)) ∧
    arenaSweep 0 scenarioArena 0 = (createMatrix 12 20, 10, 1) :=
  ⟨by decide, arenaSweep_normal_spec scenarioArena 0 (by decide), by decide⟩

/-- C3: in Normal mode (`mode = 0`), one `arenaSweep` invocation that removes
`n` rows adds exactly `10 + 20 + ⋯ + 10·2^(n−1)` points to the score (and
leaves it unchanged when `n = 0`). -/
theorem arenaSweep_score_formula (arena : Grid) (score : Nat) :
    (arenaSweep 0 arena score).2.1 =
      score + ∑ i ∈ Finset.range (arenaSweep 0 arena score).2.2, 10 * 2 ^ i := by
  rw [sum_powers]
  unfold arenaSweep
  rw [if_pos (by decide : (0 : Nat) ≠ 1)]
  exact sweepFrom_score _ arena _ score 1

/-- C10: `playerMove` is atomic on failure.  Under the guard
`gamePaused == false || mode != 0`, when the horizontally shifted piece
collides, the move is rolled back exactly: arena, position, matrix and score
are all unchanged. -/
theorem playerMove_collision_atomic (paused : Bool) (mode : Nat) (arena : Grid)
    (p : Player) (offset : Int)
    (hguard : paused = false ∨ mode ≠ 0)
    (hcol : collide arena ⟨⟨p.pos.x + offset, p.pos.y⟩, p.matrix, p.score⟩ = true) :
    playerMove paused mode arena p offset = (arena, p) := by
  obtain ⟨⟨px, py⟩, m, s⟩ := p
  simp only [playerMove, if_pos hguard]
  simp only at hcol
  rw [if_pos hcol]
  simp [Int.add_sub_cancel]

/-- Witness for C10: a 1×1 piece against the right wall of a 1×1 arena. -/
theorem playerMove_collision_atomic_witness :
    ((false = false ∨ (0 : Nat) ≠ 0) ∧
      collide [[1]] ⟨⟨0 + 1, 0⟩, [[1]], 0⟩ = true) ∧
    playerMove false 0 [[1]] ⟨⟨0, 0⟩, [[1]], 0⟩ 1 = ([[1]], ⟨⟨0, 0⟩, [[1]], 0⟩) :=
  ⟨⟨Or.inl rfl, by decide⟩,
   playerMove_collision_atomic false 0 [[1]] ⟨⟨0, 0⟩, [[1]], 0⟩ 1 (Or.inl rfl) (by decide)⟩

set_option maxHeartbeats 1600000 in
/-- C7: after `updateScore`, a score strictly inside the k-th 30-point band
`(30k, 30(k+1))` for `k = 1..9` sets `speedModifier = 1 − 0.1·k`, and the
modifier never drops below `0.1` (every branch assigns at least `0.1`, and a
score in no band keeps the previous value). -/
theorem updateScore_bands :
    (∀ (score : Nat) (sm : ℚ) (k : Nat), 1 ≤ k → k ≤ 9 →
      30 * k < score → score < 30 * (k + 1) →
      updateScore score sm = 1 - (k : ℚ) / 10) ∧
    (∀ (score : Nat) (sm : ℚ), 0.1 ≤ sm → 0.1 ≤ updateScore score sm) := by
  constructor
  · intro score sm k hk1 hk9 hlo hhi
    unfold updateScore
    split_ifs with h1 h2 h3 h4 h5 h6 h7 h8 h9
    · have hk : k = 1 := by omega
      subst hk; norm_num
    · have hk : k = 2 := by omega
      subst hk; norm_num
    · have hk : k = 3 := by omega
      subst hk; norm_num
    · have hk : k = 4 := by omega
      subst hk; norm_num
    · have hk : k = 5 := by omega
      subst hk; norm_num
    · have hk : k = 6 := by omega
      subst hk; norm_num
    · have hk : k = 7 := by omega
      subst hk; norm_num
    · have hk : k = 8 := by omega
      subst hk; norm_num
    · have hk : k = 9 := by omega
      subst hk; norm_num
    · exfalso; omega
  · intro score sm hsm
    unfold updateScore
    split_ifs <;> linarith

/-- Witness for C7: score 65 lies in the second band and yields `0.8`;
score 301 is past every band and keeps the modifier. -/
theorem updateScore_bands_witness :
    ((1 : Nat) ≤ 2 ∧ (2 : Nat) ≤ 9 ∧ 30 * 2 < 65 ∧ 65 < 30 * (2 + 1) ∧
      updateScore 65 1 = 1 - (2 : ℚ) / 10) ∧
    ((0.1 : ℚ) ≤ 1 ∧ (0.1 : ℚ) ≤ updateScore 301 1) :=
  ⟨⟨by norm_num, by norm_num, by norm_num, by norm_num,
    updateScore_bands.1 65 1 2 (by norm_num) (by norm_num) (by norm_num) (by norm_num)⟩,
   by norm_num,
   updateScore_bands.2 301 1 (by norm_num)⟩

/-! ### Lemmas about `playerRotate` -/

lemma length_eq_two (l : List α) (h : l.length = 2) : ∃ a b, l = [a, b] := by
  rcases l with _ | ⟨a, _ | ⟨b, _ | ⟨c, t⟩⟩⟩
  · simp at h
  · simp at h
  · exact ⟨a, b, rfl⟩
  · simp at h

lemma length_eq_three (l : List α) (h : l.length = 3) : ∃ a b c, l = [a, b, c] := by
  rcases l with _ | ⟨a, _ | ⟨b, _ | ⟨c, _ | ⟨d, t⟩⟩⟩⟩
  · simp at h
  · simp at h
  · simp at h
  · exact ⟨a, b, c, rfl⟩
  · simp at h

lemma length_eq_four (l : List α) (h : l.length = 4) : ∃ a b c d, l = [a, b, c, d] := by
  rcases l with _ | ⟨a, _ | ⟨b, _ | ⟨c, _ | ⟨d, _ | ⟨e, t⟩⟩⟩⟩⟩
  · simp at h
  · simp at h
  · simp at h
  · simp at h
  · exact ⟨a, b, c, d, rfl⟩
  · simp at h

/-- The game's piece matrices are square of side at most 4; enumerate the
possible shapes. -/
lemma squareLE4_cases (M : Grid) (h : squareLE4 M) :
    M = [] ∨ (∃ a, M = [[a]]) ∨ (∃ a b c d, M = [[a, b], [c, d]]) ∨
    (∃ a b c d e f g h i, M = [[a, b, c], [d, e, f], [g, h, i]]) ∨
    (∃ a b c d e f g h i j k l m n o p,
      M = [[a, b, c, d], [e, f, g, h], [i, j, k, l], [m, n, o, p]]) := by
  obtain ⟨hlen, hrow⟩ := h
  rcases M with _ | ⟨r0, _ | ⟨r1, _ | ⟨r2, _ | ⟨r3, _ | ⟨r4, M5⟩⟩⟩⟩⟩
  · exact Or.inl rfl
  · obtain ⟨a, ha⟩ := List.length_eq_one.mp (hrow r0 (by simp))
    subst ha
    exact Or.inr (Or.inl ⟨a, rfl⟩)
  · obtain ⟨a, b, h0⟩ := length_eq_two r0 (hrow r0 (by simp))
    obtain ⟨c, d, h1⟩ := length_eq_two r1 (hrow r1 (by simp))
    subst h0; subst h1
    exact Or.inr (Or.inr (Or.inl ⟨a, b, c, d, rfl⟩))
  · obtain ⟨a, b, c, h0⟩ := length_eq_three r0 (hrow r0 (by simp))
    obtain ⟨d, e, f, h1⟩ := length_eq_three r1 (hrow r1 (by simp))
    obtain ⟨g, h, i, h2⟩ := length_eq_three r2 (hrow r2 (by simp))
    subst h0; subst h1; subst h2
    exact Or.inr (Or.inr (Or.inr (Or.inl ⟨a, b, c, d, e, f, g, h, i, rfl⟩)))
  · obtain ⟨a, b, c, d, h0⟩ := length_eq_four r0 (hrow r0 (by simp))
    obtain ⟨e, f, g, h', h1⟩ := length_eq_four r1 (hrow r1 (by simp))
    obtain ⟨i, j, k, l, h2⟩ := length_eq_four r2 (hrow r2 (by simp))
    obtain ⟨m, n, o, q, h3⟩ := length_eq_four r3 (hrow r3 (by simp))
    subst h0; subst h1; subst h2; subst h3
    exact Or.inr (Or.inr (Or.inr (Or.inr
      ⟨a, b, c, d, e, f, g, h', i, j, k, l, m, n, o, q, rfl⟩)))
  · exfalso
    simp at hlen

lemma transposeLoop_two (a b c d : Nat) :
    transposeLoop [[a, b], [c, d]] = [[a, c], [b, d]] := by
  show transposeStep [[a, b], [c, d]] 1 0 = _
  rfl

lemma transposeLoop_three (a b c d e f g h i : Nat) :
    transposeLoop [[a, b, c], [d, e, f], [g, h, i]] = [[a, d, g], [b, e, h], [c, f, i]] := by
  show transposeStep (transposeStep (transposeStep [[a, b, c], [d, e, f], [g, h, i]]
    1 0) 2 0) 2 1 = _
  rw [show transposeStep [[a, b, c], [d, e, f], [g, h, i]] 1 0 =
    [[a, d, c], [b, e, f], [g, h, i]] from rfl]
  rw [show transposeStep [[a, d, c], [b, e, f], [g, h, i]] 2 0 =
    [[a, d, g], [b, e, f], [c, h, i]] from rfl]
  rw [show transposeStep [[a, d, g], [b, e, f], [c, h, i]] 2 1 =
    [[a, d, g], [b, e, h], [c, f, i]] from rfl]

lemma transposeLoop_four (a b c d e f g h i j k l m n o p : Nat) :
    transposeLoop [[a, b, c, d], [e, f, g, h], [i, j, k, l], [m, n, o, p]] =
      [[a, e, i, m], [b, f, j, n], [c, g, k, o], [d, h, l, p]] := by
  show transposeStep (transposeStep (transposeStep (transposeStep (transposeStep
    (transposeStep [[a, b, c, d], [e, f, g, h], [i, j, k, l], [m, n, o, p]]
      1 0) 2 0) 2 1) 3 0) 3 1) 3 2 = _
  rw [show transposeStep [[a, b, c, d], [e, f, g, h], [i, j, k, l], [m, n, o, p]] 1 0 =
    [[a, e, c, d], [b, f, g, h], [i, j, k, l], [m, n, o, p]] from rfl]
  rw [show transposeStep [[a, e, c, d], [b, f, g, h], [i, j, k, l], [m, n, o, p]] 2 0 =
    [[a, e, i, d], [b, f, g, h], [c, j, k, l], [m, n, o, p]] from rfl]
  rw [show transposeStep [[a, e, i, d], [b, f, g, h], [c, j, k, l], [m, n, o, p]] 2 1 =
    [[a, e, i, d], [b, f, j, h], [c, g, k, l], [m, n, o, p]] from rfl]
  rw [show transposeStep [[a, e, i, d], [b, f, j, h], [c, g, k, l], [m, n, o, p]] 3 0 =
    [[a, e, i, m], [b, f, j, h], [c, g, k, l], [d, n, o, p]] from rfl]
  rw [show transposeStep [[a, e, i, m], [b, f, j, h], [c, g, k, l], [d, n, o, p]] 3 1 =
    [[a, e, i, m], [b, f, j, n], [c, g, k, l], [d, h, o, p]] from rfl]
  rw [show transposeStep [[a, e, i, m], [b, f, j, n], [c, g, k, l], [d, h, o, p]] 3 2 =
    [[a, e, i, m], [b, f, j, n], [c, g, k, o], [d, h, l, p]] from rfl]

/-- Undoing a rotation: for the square matrices the game uses and a non-zero
direction, `rotate (rotate M d) (-d) = M` (the failure path of
`playerRotate`). -/
lemma rotate_rotate_neg (M : Grid) (d : Int) (hd : d ≠ 0) (hsq : squareLE4 M) :
    rotate (rotate M d) (-d) = M := by
  have hcases := squareLE4_cases M hsq
  by_cases hpos : 0 < d
  · have hneg : ¬ 0 < -d := by omega
    rcases hcases with rfl | ⟨a, rfl⟩ | ⟨a, b, c, d', rfl⟩ |
        ⟨a, b, c, d', e, f, g, h, i, rfl⟩ |
        ⟨a, b, c, d', e, f, g, h, i, j, k, l, m, n, o, q, rfl⟩ <;>
      simp only [rotate, if_pos hpos, if_neg hneg]
    · rfl
    · rfl
    · rw [transposeLoop_two]
      rw [show List.map List.reverse [[a, c], [b, d']] = [[c, a], [d', b]] from rfl]
      rw [transposeLoop_two]
      rfl
    · rw [transposeLoop_three]
      rw [show List.map List.reverse [[a, d', g], [b, e, h], [c, f, i]] =
        [[g, d', a], [h, e, b], [i, f, c]] from rfl]
      rw [transposeLoop_three]
      rfl
    · rw [transposeLoop_four]
      rw [show List.map List.reverse
        [[a, e, i, m], [b, f, j, n], [c, g, k, o], [d', h, l, q]] =
        [[m, i, e, a], [n, j, f, b], [o, k, g, c], [q, l, h, d']] from rfl]
      rw [transposeLoop_four]
      rfl
  · have hpos' : 0 < -d := by omega
    rcases hcases with rfl | ⟨a, rfl⟩ | ⟨a, b, c, d', rfl⟩ |
        ⟨a, b, c, d', e, f, g, h, i, rfl⟩ |
        ⟨a, b, c, d', e, f, g, h, i, j, k, l, m, n, o, q, rfl⟩ <;>
      simp only [rotate, if_neg hpos, if_pos hpos']
    · rfl
    · rfl
    · rw [transposeLoop_two]
      rw [show List.reverse [[a, c], [b, d']] = [[b, d'], [a, c]] from rfl]
      rw [transposeLoop_two]
      rfl
    · rw [transposeLoop_three]
      rw [show List.reverse [[a, d', g], [b, e, h], [c, f, i]] =
        [[c, f, i], [b, e, h], [a, d', g]] from rfl]
      rw [transposeLoop_three]
      rfl
    · rw [transposeLoop_four]
      rw [show List.reverse
        [[a, e, i, m], [b, f, j, n], [c, g, k, o], [d', h, l, q]] =
        [[d', h, l, q], [c, g, k, o], [b, f, j, n], [a, e, i, m]] from rfl]
      rw [transposeLoop_four]
      rfl

lemma kickLoop_succ (arena m : Grid) (py : Int) (s : Nat) (fuel : Nat) (x o : Int) :
    kickLoop arena m py s (fuel + 1) x o =
      if collide arena ⟨⟨x, py⟩, m, s⟩ then
        (if ((m.getD 0 []).length : Int) < nextOffset o then none
         else kickLoop arena m py s fuel (x + o) (nextOffset o))
      else some x := rfl

/-- Whenever the wall-kick loop reports a column, the piece does not collide
there. -/
lemma kickLoop_some_not_collide (arena m : Grid) (py : Int) (s : Nat) :
    ∀ (fuel : Nat) (x o x' : Int),
      kickLoop arena m py s fuel x o = some x' →
      collide arena ⟨⟨x', py⟩, m, s⟩ = false := by
  intro fuel
  induction fuel with
  | zero =>
    intro x o x' h
    simp [kickLoop] at h
  | succ fuel ih =>
    intro x o x' h
    rw [kickLoop_succ] at h
    by_cases hc : collide arena ⟨⟨x, py⟩, m, s⟩ = true
    · rw [if_pos hc] at h
      by_cases hb : ((m.getD 0 []).length : Int) < nextOffset o
      · rw [if_pos hb] at h
        exact absurd h (by simp)
      · rw [if_neg hb] at h
        exact ih _ _ _ h
    · rw [if_neg hc] at h
      injection h with h'
      subst h'
      simpa using hc

/-- C6 counterexample: `playerRotate(0)` is reachable (`move("z", 0)` on the
left top shoulder button), rotates counter-clockwise (`0 > 0` is false), and
on bail-out "undoes" with `rotate(matrix, -0)`, i.e. a *second*
counter-clockwise rotation.  On a fully occupied 3×3 arena the kick search
fails everywhere, yet the T piece comes back rotated by 180°, not restored. -/
theorem playerRotate_zero_dir_counterexample :
    (playerRotate false 0 fullArena3 ⟨⟨0, 0⟩, createPiece .T, 0⟩ 0).matrix ≠
      createPiece .T := by
  decide

/-- C6 amended: for `dir ≠ 0` (and the square piece matrices the game uses),
`playerRotate` rotates and then walks the zig-zag offsets: if the kick loop
bails out (offset exceeded the piece width), the rotation is undone and the
original column restored, so the player is exactly as before the call; if it
finds a column, the player adopts it with the rotated matrix, and that
position does not collide. -/
theorem playerRotate_kick_spec (paused : Bool) (mode : Nat) (arena : Grid) (p : Player)
    (dir : Int) (hguard : paused = false ∨ mode ≠ 0) (hdir : dir ≠ 0)
    (hsq : squareLE4 p.matrix) :
    (kickLoop arena (rotate p.matrix dir) p.pos.y p.score
        (((rotate p.matrix dir).getD 0 []).length + 3) p.pos.x 1 = none →
      playerRotate paused mode arena p dir = p) ∧
    (∀ x', kickLoop arena (rotate p.matrix dir) p.pos.y p.score
        (((rotate p.matrix dir).getD 0 []).length + 3) p.pos.x 1 = some x' →
      playerRotate paused mode arena p dir =
        ⟨⟨x', p.pos.y⟩, rotate p.matrix dir, p.score⟩ ∧
      collide arena ⟨⟨x', p.pos.y⟩, rotate p.matrix dir, p.score⟩ = false) := by
  obtain ⟨⟨px, py⟩, m, s⟩ := p
  constructor
  · intro hnone
    simp only [playerRotate, if_pos hguard] at hnone ⊢
    rw [hnone, rotate_rotate_neg m dir hdir hsq]
  · intro x' hsome
    simp only [playerRotate, if_pos hguard] at hsome ⊢
    rw [hsome]
    exact ⟨rfl, kickLoop_some_not_collide arena _ py s _ px 1 x' hsome⟩

/-- Witness for the amended C6: rotating a T piece with `dir = 1` inside the
fully occupied 3×3 arena: the kick loop bails out and the player is restored
exactly. -/
theorem playerRotate_kick_spec_witness :
    ((false = false ∨ (0 : Nat) ≠ 0) ∧ (1 : Int) ≠ 0 ∧ squareLE4 (createPiece .T)) ∧
    playerRotate false 0 fullArena3 ⟨⟨0, 0⟩, createPiece .T, 0⟩ 1 =
      ⟨⟨0, 0⟩, createPiece .T, 0⟩ :=
  ⟨⟨Or.inl rfl, by decide, by decide⟩,
   (playerRotate_kick_spec false 0 fullArena3 ⟨⟨0, 0⟩, createPiece .T, 0⟩ 1
      (Or.inl rfl) (by decide) (by decide)).1 (by decide)⟩

/-- C9: the Firefox platform with identity string
"Xbox 360 Controller (XInput STANDARD GAMEPAD)" resolves to the XBOX/Firefox
mappings entry (not the standard identity mapping), and any
(platform, controller type) environment matching no `Mappings` entry falls
back to `StandardMapping`. -/
theorem resolveMapping_spec :
    (resolveMapping .firefox "Xbox 360 Controller (XInput STANDARD GAMEPAD)" =
        xbox360FirefoxMapping ∧
      xbox360FirefoxMapping ≠ StandardMapping) ∧
    (∀ (p : PlatformType) (id : String),
      (∀ mp ∈ Mappings,
        envMatchesFilter mp.envFilter p (resolveControllerType id) = false) →
      resolveMapping p id = StandardMapping) := by
  refine ⟨⟨by decide, by decide⟩, ?_⟩
  intro p id hnone
  unfold resolveMapping
  have hfind : (Mappings.find? fun mp =>
      envMatchesFilter mp.envFilter p (resolveControllerType id)) = none := by
    rw [List.find?_eq_none]
    intro mp hmp
    rw [hnone mp hmp]
    simp
  rw [hfind]
  rfl

/-- Witness for C9: a WebKit environment with an unrecognized identity matches
no entry and yields the identity mapping. -/
theorem resolveMapping_spec_witness :
    (∀ mp ∈ Mappings,
      envMatchesFilter mp.envFilter .webKit
        (resolveControllerType "mystery controller") = false) ∧
    resolveMapping .webKit "mystery controller" = StandardMapping :=
  ⟨by decide, resolveMapping_spec.2 .webKit "mystery controller" (by decide)⟩

/-- C8: with the default thresholds (deadzone 0.03, maximizeThreshold 0.97),
the filter maps `(−0.03, 0.03)` to 0, values above 0.97 to 1, values below
−0.97 to −1, and leaves every other value unchanged. -/
theorem applyDeadzone_spec :
    (∀ v : ℚ, -0.03 < v → v < 0.03 → applyDeadzoneMaximizeDefault v = 0) ∧
    (∀ v : ℚ, 0.97 < v → applyDeadzoneMaximizeDefault v = 1) ∧
    (∀ v : ℚ, v < -0.97 → applyDeadzoneMaximizeDefault v = -1) ∧
    (∀ v : ℚ, 0.03 ≤ v → v ≤ 0.97 → applyDeadzoneMaximizeDefault v = v) ∧
    (∀ v : ℚ, -0.97 ≤ v → v ≤ -0.03 → applyDeadzoneMaximizeDefault v = v) := by
  refine ⟨fun v h1 h2 => ?_, fun v h1 => ?_, fun v h1 => ?_,
    fun v h1 h2 => ?_, fun v h1 h2 => ?_⟩ <;>
    (unfold applyDeadzoneMaximizeDefault applyDeadzoneMaximize
     split_ifs <;> first | rfl | linarith)

/-- Witness for C8 at one point of each region. -/
theorem applyDeadzone_spec_witness :
    applyDeadzoneMaximizeDefault 0.01 = 0 ∧
    applyDeadzoneMaximizeDefault 0.98 = 1 ∧
    applyDeadzoneMaximizeDefault (-0.98) = -1 ∧
    applyDeadzoneMaximizeDefault 0.5 = 0.5 ∧
    applyDeadzoneMaximizeDefault (-0.5) = -0.5 :=
  ⟨applyDeadzone_spec.1 0.01 (by norm_num) (by norm_num),
   applyDeadzone_spec.2.1 0.98 (by norm_num),
   applyDeadzone_spec.2.2.1 (-0.98) (by norm_num),
   applyDeadzone_spec.2.2.2.1 0.5 (by norm_num) (by norm_num),
   applyDeadzone_spec.2.2.2.2 (-0.5) (by norm_num) (by norm_num)⟩

end Tetris
